import Mathlib

/-!
Shallow embedding of `discord_http/user.py`: the `PartialUser`, `User` and
`UserClient` data model and its operations (`send`, `create_dm`, `fetch`,
`edit`, parsing, display helpers).  The external HTTP collaborator
(`DiscordAPI.query`) is modelled as an oracle `Request → JValue` mapping each
issued request to the decoded response record; every operation returns the
list of requests it issued synchronously, the detached work it spawned, the
parsed result (`Except` for Python exceptions), and the receiver object's
field state after the call.
-/

/-- Decoded JSON-ish Python values handled by the module: `None`, booleans,
ints, strings and mappings (dicts with string keys). -/
inductive JValue : Type
  | jnull : JValue
  | jbool : Bool → JValue
  | jint : Int → JValue
  | jstr : String → JValue
  | jobj : List (String × JValue) → JValue

/-- A decoded mapping: the payload/record shape used by the module. -/
abbrev Record : Type := List (String × JValue)

/-- Python truthiness (`bool(v)`) for the values above: `None`, `False`, `0`,
`""` and `{}` are falsy, everything else truthy. -/
def pyTruthy : JValue → Bool
  | JValue.jnull => false
  | JValue.jbool b => b
  | JValue.jint n => n != 0
  | JValue.jstr s => s != ""
  | JValue.jobj fs => !fs.isEmpty

/-- Python `data.get(k, d)`: the value at key `k`, or the default `d`. -/
def lookupD (r : Record) (k : String) (d : JValue) : JValue :=
  match r.find? (fun p => p.1 == k) with
  | some p => p.2
  | none => d

/-- Python `data[k]`: the value at key `k`, `KeyError` when absent. -/
def getKey (r : Record) (k : String) : Except String JValue :=
  match r.find? (fun p => p.1 == k) with
  | some p => Except.ok p.2
  | none => Except.error ("KeyError: " ++ k)

/-- Decimal digit value of a character, if any. -/
def digitVal (c : Char) : Option Nat :=
  if 48 ≤ c.toNat ∧ c.toNat ≤ 57 then some (c.toNat - 48) else none

/-- Value of a non-empty decimal digit string, if every character is a digit. -/
def digitsToNat : List Char → Option Nat
  | [] => none
  | cs => cs.foldl (fun acc c => acc.bind (fun n => (digitVal c).map (fun d => n * 10 + d))) (some 0)

/-- Python `int(str)`: an optional sign followed by decimal digits. -/
def pyStrToInt (s : String) : Option Int :=
  match s.toList with
  | '-' :: rest => (digitsToNat rest).map (fun n => -(Int.ofNat n))
  | '+' :: rest => (digitsToNat rest).map Int.ofNat
  | cs => (digitsToNat cs).map Int.ofNat

/-- Python `int(v)`: ints pass through, bools coerce to 0/1, decimal strings
are parsed, anything else raises. -/
def pyIntOf : JValue → Except String Int
  | JValue.jint n => Except.ok n
  | JValue.jbool b => Except.ok (if b then 1 else 0)
  | JValue.jstr s =>
    match pyStrToInt s with
    | some n => Except.ok n
    | none => Except.error ("invalid literal for int: " ++ s)
  | _ => Except.error "int: unsupported operand"

/-- Python `int(data[k])`: indexing followed by int conversion. -/
def pyIntKey (r : Record) (k : String) : Except String Int :=
  match getKey r k with
  | Except.error e => Except.error e
  | Except.ok v => pyIntOf v

/-- Expects a decoded response body to be a mapping, as the module does when
it indexes into `r.response`. -/
def recordOf : JValue → Except String Record
  | JValue.jobj fs => Except.ok fs
  | _ => Except.error "TypeError: response is not a mapping"

/-- The `MISSING` sentinel pattern from `utils.MISSING`: an argument is either
not supplied at all (`missing`) or supplied with a value (`given v`), where
the value itself may still be Python `None`. -/
inductive Omittable (α : Type) : Type
  | missing : Omittable α
  | given : α → Omittable α

/-- Colour wrapper around its integer value (the part of `colour.py` the
module uses). -/
structure Colour where
  value : Int

/-- Hexadecimal digit value of a character, if any. -/
def hexVal (c : Char) : Option Nat :=
  if 48 ≤ c.toNat ∧ c.toNat ≤ 57 then some (c.toNat - 48)
  else if 97 ≤ c.toNat ∧ c.toNat ≤ 102 then some (c.toNat - 97 + 10)
  else if 65 ≤ c.toNat ∧ c.toNat ≤ 70 then some (c.toNat - 65 + 10)
  else none

/-- Value of a non-empty hex digit string, if every character is a hex digit. -/
def parseHexNat : List Char → Option Nat
  | [] => none
  | cs => cs.foldl (fun acc c => acc.bind (fun n => (hexVal c).map (fun d => n * 16 + d))) (some 0)

/-- Modelled from the spec: `Colour.from_hex` (in `colour.py`, not under
`src/`) decodes a colour from its hex-string representation, an optional
leading `#` followed by hex digits; a malformed string fails. -/
def Colour.from_hex (s : String) : Option Colour :=
  match s.toList with
  | '#' :: rest => (parseHexNat rest).map (fun n => Colour.mk (Int.ofNat n))
  | cs => (parseHexNat cs).map (fun n => Colour.mk (Int.ofNat n))

/-- User flag bitset wrapper (the part of `flags.py` the module uses). -/
structure UserFlags where
  value : Int

/-- Image references built by the module (the part of `asset.py` it uses):
an avatar/banner scoped to an owning id, an avatar decoration, or a default
avatar variant. -/
inductive Asset : Type
  | avatar : Int → JValue → Asset
  | banner : Int → JValue → Asset
  | avatarDecoration : JValue → Asset
  | defaultAvatar : Int → Asset

/-- Modelled from the spec: the fixed small enumeration of default-avatar
variants (`DefaultAvatarType` in `enums.py`, not under `src/`). -/
inductive DefaultAvatarType : Type
  | blurple | grey | green | orange | red | pink

/-- Number of members of the default-avatar enumeration, `len(DefaultAvatarType)`. -/
def DefaultAvatarType.count : Nat := 6

/-- Modelled from the spec: `utils.bytes_to_base64` (in `utils.py`, not under
`src/`) encodes raw image bytes with base64 before they are placed in an edit
payload.  Bytes are naturals below 256. -/
def b64Chars : List Char :=
  "ABCDEFGHIJKLMNOPQRSTUVWXYZabcdefghijklmnopqrstuvwxyz0123456789+/".toList

/-- Character of the base64 alphabet at a 6-bit index. -/
def b64c (n : Nat) : Char := b64Chars.getD n '='

/-- Modelled from the spec: standard base64 encoding of a byte sequence,
with `=` padding. -/
def bytes_to_base64 : List Nat → String
  | [] => ""
  | [a] =>
    String.mk [b64c (a / 4), b64c ((a % 4) * 16), '=', '=']
  | [a, b] =>
    String.mk [b64c (a / 4), b64c ((a % 4) * 16 + b / 16), b64c ((b % 16) * 4), '=']
  | a :: b :: c :: rest =>
    String.mk [b64c (a / 4), b64c ((a % 4) * 16 + b / 16),
               b64c ((b % 16) * 4 + c / 64), b64c (c % 64)]
      ++ bytes_to_base64 rest

/-- `PartialUser.__init__`: holds the numeric id (the `_state` collaborator
handle carries no data and is passed separately as the oracle). -/
structure PartialUser where
  id : Int

/-- The mention token for an id, mirroring `f"<@!{self.id}>"`. -/
def mentionOf (i : Int) : String := "<@!" ++ toString i ++ ">"

/-- `PartialUser.mention`. -/
def PartialUser.mention (u : PartialUser) : String := mentionOf u.id

/-- The default-avatar index `(self.id >> 22) % len(DefaultAvatarType)`;
Python `>>` is floor division by a power of two and `%` with a positive
modulus is Euclidean, hence `Int.fdiv` and `Int.emod`. -/
def defaultAvatarIndex (i : Int) : Int :=
  Int.emod (Int.fdiv i (2 ^ 22)) (Int.ofNat DefaultAvatarType.count)

/-- The default avatar asset computed from an id. -/
def defaultAvatarOf (i : Int) : Asset := Asset.defaultAvatar (defaultAvatarIndex i)

/-- `PartialUser.default_avatar`. -/
def PartialUser.default_avatar (u : PartialUser) : Asset := defaultAvatarOf u.id

/-- `User.__init__` collapses a discriminator equal to the string `"0"` to
`None`; every other value is stored verbatim. -/
def normDiscriminator : JValue → JValue
  | JValue.jstr "0" => JValue.jnull
  | v => v

/-- `User` field state after `__init__`/`_from_data`: id plus the parsed
profile snapshot.  Fields the code stores verbatim keep the dynamic `JValue`
type; fields the code only sets behind a truthiness gate are `Option`. -/
structure User where
  id : Int
  name : JValue
  bot : JValue
  system : JValue
  discriminator : JValue
  avatar : Option Asset
  banner : Option Asset
  accent_colour : Option Colour
  banner_colour : Option Colour
  avatar_decoration : Option Asset
  global_name : JValue
  public_flags : Option UserFlags
  clan : JValue

/-- `Colour(value)` on a dict value: requires an int (bools coerce), raises
otherwise. -/
def colourOfValue : JValue → Except String Colour
  | JValue.jint n => Except.ok (Colour.mk n)
  | JValue.jbool b => Except.ok (Colour.mk (if b then 1 else 0))
  | _ => Except.error "TypeError: Colour expects an int"

/-- `Colour.from_hex(value)` on a dict value: requires a hex string, raises
otherwise. -/
def colourOfHexValue : JValue → Except String Colour
  | JValue.jstr s =>
    match Colour.from_hex s with
    | some c => Except.ok c
    | none => Except.error ("ValueError: invalid hex colour " ++ s)
  | _ => Except.error "TypeError: from_hex expects a str"

/-- `UserFlags(value)` on a dict value: requires an int (bools coerce),
raises otherwise. -/
def flagsOfValue : JValue → Except String UserFlags
  | JValue.jint n => Except.ok (UserFlags.mk n)
  | JValue.jbool b => Except.ok (UserFlags.mk (if b then 1 else 0))
  | _ => Except.error "TypeError: UserFlags expects an int"

/-- The `if data.get(k, None):` gate of `User._from_data`: when the value at
`k` is truthy the decoder runs (its exception propagating), otherwise the
field stays unset. -/
def gatedParse {β : Type} (r : Record) (k : String) (f : JValue → Except String β) :
    Except String (Option β) :=
  if pyTruthy (lookupD r k JValue.jnull) then
    match f (lookupD r k JValue.jnull) with
    | Except.ok b => Except.ok (some b)
    | Except.error e => Except.error e
  else Except.ok none

/-- The `User` record built by `__init__`/`_from_data` once the fallible
pieces (id, username, colour and flag decodes) have succeeded. -/
def User.build (r : Record) (pid : Int) (nm : JValue)
    (ac bc : Option Colour) (pf : Option UserFlags) : User :=
  { id := pid
    name := nm
    bot := lookupD r "bot" (JValue.jbool false)
    system := lookupD r "system" (JValue.jbool false)
    discriminator := normDiscriminator (lookupD r "discriminator" JValue.jnull)
    avatar :=
      if pyTruthy (lookupD r "avatar" JValue.jnull) then
        some (Asset.avatar pid (lookupD r "avatar" JValue.jnull))
      else none
    banner :=
      if pyTruthy (lookupD r "banner" JValue.jnull) then
        some (Asset.banner pid (lookupD r "banner" JValue.jnull))
      else none
    accent_colour := ac
    banner_colour := bc
    avatar_decoration :=
      if pyTruthy (lookupD r "avatar_decoration" JValue.jnull) then
        some (Asset.avatarDecoration (lookupD r "avatar_decoration" JValue.jnull))
      else none
    global_name := lookupD r "global_name" JValue.jnull
    public_flags := pf
    clan := lookupD r "clan" JValue.jnull }

/-- `User(state=..., data=r)`: `__init__` plus `_from_data`, with Python
exceptions surfaced as `Except.error` in the order the statements run. -/
def User.from_data (r : Record) : Except String User :=
  match pyIntKey r "id" with
  | Except.error e => Except.error e
  | Except.ok pid =>
    match getKey r "username" with
    | Except.error e => Except.error e
    | Except.ok nm =>
      match gatedParse r "accent_color" colourOfValue with
      | Except.error e => Except.error e
      | Except.ok ac =>
        match gatedParse r "banner_color" colourOfHexValue with
        | Except.error e => Except.error e
        | Except.ok bc =>
          match gatedParse r "public_flags" flagsOfValue with
          | Except.error e => Except.error e
          | Except.ok pf => Except.ok (User.build r pid nm ac bc pf)

/-- `User` construction from a decoded response body (must be a mapping). -/
def User.from_json (v : JValue) : Except String User :=
  match recordOf v with
  | Except.error e => Except.error e
  | Except.ok r => User.from_data r

/-- `User.mention`, inherited from `PartialUser`. -/
def User.mention (u : User) : String := mentionOf u.id

/-- `User.display_name`: `self.global_name or self.name` (Python `or`
returns the first truthy operand). -/
def User.display_name (u : User) : JValue :=
  if pyTruthy u.global_name then u.global_name else u.name

/-- `User.display_avatar`: `self.avatar or self.default_avatar` (an explicit
`Asset` is always truthy). -/
def User.display_avatar (u : User) : Asset :=
  match u.avatar with
  | some a => a
  | none => defaultAvatarOf u.id

/-- `UserClient`: a `User` plus the `verified` field stored verbatim with
default `False`. -/
structure UserClient where
  toUser : User
  verified : JValue

/-- `UserClient(state=..., data=r)`. -/
def UserClient.from_data (r : Record) : Except String UserClient :=
  match User.from_data r with
  | Except.error e => Except.error e
  | Except.ok u => Except.ok { toUser := u, verified := lookupD r "verified" (JValue.jbool false) }

/-- `UserClient` construction from a decoded response body. -/
def UserClient.from_json (v : JValue) : Except String UserClient :=
  match recordOf v with
  | Except.error e => Except.error e
  | Except.ok r => UserClient.from_data r

/-- The endpoints the module addresses, with the channel segment kept as the
string Python interpolates into the f-string path. -/
inductive Endpoint : Type
  | channelsMessages : String → Endpoint
  | usersMeChannels : Endpoint
  | usersId : Int → Endpoint
  | usersMe : Endpoint

/-- The literal path each endpoint renders to, mirroring the f-strings of the
source. -/
def pathOf : Endpoint → String
  | Endpoint.channelsMessages chan => "/channels/" ++ chan ++ "/messages"
  | Endpoint.usersMeChannels => "/users/@me/channels"
  | Endpoint.usersId i => "/users/" ++ toString i
  | Endpoint.usersMe => "/users/@me"

/-- Modelled from the spec: the message payload `MessageResponse` builds from
the `send` keyword arguments (`response.py` is not under `src/`); it carries
the given content/embeds/files/components/flags/allowed-mentions/TTS/
response-type verbatim. -/
structure MessageArgs where
  content : Omittable JValue
  embed : Omittable JValue
  embeds : Omittable JValue
  file : Omittable JValue
  files : Omittable JValue
  view : Omittable JValue
  tts : Option Bool
  rtype : Int
  flags : Omittable JValue
  allowed_mentions : Omittable JValue

/-- Request body: none, a JSON mapping, or the multipart message payload. -/
inductive RequestBody : Type
  | empty : RequestBody
  | json : Record → RequestBody
  | multipart : MessageArgs → RequestBody

/-- One call to the collaborator `self._state.query(method, path, ...)`. -/
structure Request where
  method : String
  endpoint : Endpoint
  body : RequestBody

/-- True for a message-creation request `POST /channels/{...}/messages`. -/
def isMsgCreate (r : Request) : Bool :=
  r.method == "POST" &&
    (match r.endpoint with
     | Endpoint.channelsMessages _ => true
     | _ => false)

/-- True for a DM-channel-creation request `POST /users/@me/channels`. -/
def isDmCreate (r : Request) : Bool :=
  r.method == "POST" &&
    (match r.endpoint with
     | Endpoint.usersMeChannels => true
     | _ => false)

/-- Modelled from the spec: the message record `send` returns, parsed from
the creation response (`message.py` is not under `src/`). -/
structure Message where
  data : JValue

/-- Modelled from the spec: parsing the creation response into the message
record. -/
def Message.ofData (v : JValue) : Message := Message.mk v

/-- Modelled from the spec: the DM channel record returned by
`create_dm` (`channel.py` is not under `src/`); the module only reads its
`id`, parsed with `int(data["id"])`. -/
structure DMChannel where
  id : Int

/-- Modelled from the spec: `DMChannel(state=..., data=r.response)` parsing
of the creation response. -/
def DMChannel.from_json (v : JValue) : Except String DMChannel :=
  match recordOf v with
  | Except.error e => Except.error e
  | Except.ok r =>
    match pyIntKey r "id" with
    | Except.error e => Except.error e
    | Except.ok i => Except.ok (DMChannel.mk i)

/-- A detached unit of work spawned by an operation. -/
inductive DeferredTask : Type
  | deleteAfter : Message → Rat → DeferredTask

/-- Outcome of running detached work: either it completed, or its failure was
swallowed; neither reaches the original caller. -/
inductive DeferredOutcome : Type
  | completed : DeferredOutcome
  | swallowedFailure : DeferredOutcome

/-- Modelled from the spec: running a deferred deletion later either
completes or swallows its own failure — it raises nothing. -/
def DeferredTask.run (t : DeferredTask) (fails : Bool) : DeferredOutcome :=
  match t with
  | DeferredTask.deleteAfter _ _ =>
    if fails then DeferredOutcome.swallowedFailure else DeferredOutcome.completed

/-- Modelled from the spec: `Message.delete(delay=d)` schedules a detached
best-effort deferred deletion and returns at once, issuing no synchronous
request. -/
def Message.delete (m : Message) (delay : Rat) : List DeferredTask :=
  [DeferredTask.deleteAfter m delay]

/-- Python `str()` of an `Optional[int]` channel id, as interpolated into the
message-creation path: `None` renders as the string `"None"`. -/
def pyOptIntStr : Option Int → String
  | none => "None"
  | some n => toString n

/-- The DM-channel-creation request issued by `create_dm`:
`POST /users/@me/channels` with `json={"recipient_id": self.id}`. -/
def dmCreateRequest (u : PartialUser) : Request :=
  Request.mk "POST" Endpoint.usersMeChannels (RequestBody.json [("recipient_id", JValue.jint u.id)])

/-- The message-creation request issued by `send`:
`POST /channels/{channel_id}/messages` with the multipart payload. -/
def messageCreateRequest (chan : String) (args : MessageArgs) : Request :=
  Request.mk "POST" (Endpoint.channelsMessages chan) (RequestBody.multipart args)

/-- The profile-fetch request issued by `fetch`: `GET /users/{self.id}`. -/
def fetchRequest (u : PartialUser) : Request :=
  Request.mk "GET" (Endpoint.usersId u.id) RequestBody.empty

/-- `UserClient.edit` payload: a key is present exactly when the argument is
not the `MISSING` sentinel; an explicit `None` is sent as null; bytes are
base64-encoded first.  Insertion order follows the source: username, avatar,
banner. -/
def editPayload (username : Omittable (Option String))
    (avatar banner : Omittable (Option (List Nat))) : Record :=
  (match username with
   | Omittable.missing => []
   | Omittable.given (some s) => [("username", JValue.jstr s)]
   | Omittable.given none => [("username", JValue.jnull)]) ++
  (match avatar with
   | Omittable.missing => []
   | Omittable.given (some b) => [("avatar", JValue.jstr (bytes_to_base64 b))]
   | Omittable.given none => [("avatar", JValue.jnull)]) ++
  (match banner with
   | Omittable.missing => []
   | Omittable.given (some b) => [("banner", JValue.jstr (bytes_to_base64 b))]
   | Omittable.given none => [("banner", JValue.jnull)])

/-- The profile-update request issued by `edit`: `PATCH /users/@me` with the
tri-state payload. -/
def editRequest (username : Omittable (Option String))
    (avatar banner : Omittable (Option (List Nat))) : Request :=
  Request.mk "PATCH" Endpoint.usersMe (RequestBody.json (editPayload username avatar banner))

/-- Result of `create_dm`: requests issued, parsed channel, receiver state
after the call. -/
structure DmResult where
  requests : List Request
  result : Except String DMChannel
  self_after : PartialUser

/-- Result of `send`: requests issued synchronously, detached work spawned,
parsed message, receiver state after the call. -/
structure SendResult where
  requests : List Request
  spawned : List DeferredTask
  result : Except String Message
  self_after : PartialUser

/-- Result of `fetch`. -/
structure FetchResult where
  requests : List Request
  result : Except String User
  self_after : PartialUser

/-- Result of `edit`. -/
structure EditResult where
  requests : List Request
  result : Except String UserClient
  self_after : UserClient

/-- `PartialUser.create_dm`: one `POST /users/@me/channels` request, parsed
into a DM channel; the method assigns nothing to `self`. -/
def PartialUser.create_dm (oracle : Request → JValue) (u : PartialUser) : DmResult :=
  DmResult.mk [dmCreateRequest u] (DMChannel.from_json (oracle (dmCreateRequest u))) u

/-- The tail of `send` once the channel segment is resolved: issue the
message-creation request, parse the message, optionally schedule the deferred
deletion, return the message. -/
def sendToChannel (oracle : Request → JValue) (u : PartialUser) (chan : String)
    (pre : List Request) (args : MessageArgs) (delete_after : Option Rat) : SendResult :=
  match delete_after with
  | none =>
    SendResult.mk (pre ++ [messageCreateRequest chan args]) []
      (Except.ok (Message.ofData (oracle (messageCreateRequest chan args)))) u
  | some d =>
    SendResult.mk (pre ++ [messageCreateRequest chan args])
      (Message.delete (Message.ofData (oracle (messageCreateRequest chan args))) d)
      (Except.ok (Message.ofData (oracle (messageCreateRequest chan args)))) u

/-- `PartialUser.send`: when `channel_id` is the `MISSING` sentinel, first
`create_dm` (its parse failure propagating, in which case no further request
is issued); otherwise the supplied value — even an explicit `None` — is
interpolated into the path verbatim.  The method assigns nothing to `self`. -/
def PartialUser.send (oracle : Request → JValue) (u : PartialUser) (args : MessageArgs)
    (channel_id : Omittable (Option Int)) (delete_after : Option Rat) : SendResult :=
  match channel_id with
  | Omittable.missing =>
    match (PartialUser.create_dm oracle u).result with
    | Except.error e =>
      SendResult.mk (PartialUser.create_dm oracle u).requests [] (Except.error e) u
    | Except.ok ch =>
      sendToChannel oracle u (toString ch.id) (PartialUser.create_dm oracle u).requests
        args delete_after
  | Omittable.given c => sendToChannel oracle u (pyOptIntStr c) [] args delete_after

/-- `PartialUser.fetch`: one `GET /users/{id}` request parsed into a fresh
`User`; the method assigns nothing to `self`. -/
def PartialUser.fetch (oracle : Request → JValue) (u : PartialUser) : FetchResult :=
  FetchResult.mk [fetchRequest u] (User.from_json (oracle (fetchRequest u))) u

/-- `UserClient.edit`: one `PATCH /users/@me` request with the tri-state
payload, returning a `UserClient` freshly parsed from the response; the
method assigns nothing to `self`. -/
def UserClient.edit (oracle : Request → JValue) (uc : UserClient)
    (username : Omittable (Option String))
    (avatar banner : Omittable (Option (List Nat))) : EditResult :=
  EditResult.mk [editRequest username avatar banner]
    (UserClient.from_json (oracle (editRequest username avatar banner))) uc

/-- Empty `send` keyword arguments at their source defaults (everything
`MISSING`, `tts=False`, `type=4`), used as a concrete evaluation input. -/
def args0 : MessageArgs :=
  MessageArgs.mk Omittable.missing Omittable.missing Omittable.missing Omittable.missing
    Omittable.missing Omittable.missing (some false) 4 Omittable.missing Omittable.missing

/-- A concrete partial user. -/
def u0 : PartialUser := PartialUser.mk 7

/-- A concrete collaborator oracle: DM-channel creation answers with channel
id 99, every other request with an empty mapping. -/
def oracle0 : Request → JValue := fun r =>
  match r.endpoint with
  | Endpoint.usersMeChannels => JValue.jobj [("id", JValue.jint 99)]
  | _ => JValue.jobj []

/-- A concrete profile record: avatar present and truthy, banner colour a hex
string, accent colour and the remaining optionals absent. -/
def recC4 : Record :=
  [("id", JValue.jint 1), ("username", JValue.jstr "u"),
   ("avatar", JValue.jstr "h"), ("banner_color", JValue.jstr "#10")]

/-- The user parsed from `recC4`. -/
def userC4 : User :=
  User.build recC4 1 (JValue.jstr "u") none (some (Colour.mk 16)) none

/-- A concrete record carrying discriminator `"0"`. -/
def recC5 : Record :=
  [("id", JValue.jint 2), ("username", JValue.jstr "x"), ("discriminator", JValue.jstr "0")]

/-- The user parsed from `recC5`. -/
def userC5 : User := User.build recC5 2 (JValue.jstr "x") none none none

/-- A concrete record with a set global name. -/
def recC6 : Record :=
  [("id", JValue.jint 3), ("username", JValue.jstr "nm"), ("global_name", JValue.jstr "G")]

/-- The user parsed from `recC6`. -/
def userC6 : User := User.build recC6 3 (JValue.jstr "nm") none none none

/-- The end-to-end scenario record of the spec:
`{id: "123", username: "al", global_name: null, discriminator: "0"}`. -/
def specRecord : Record :=
  [("id", JValue.jstr "123"), ("username", JValue.jstr "al"),
   ("global_name", JValue.jnull), ("discriminator", JValue.jstr "0")]

theorem gatedParse_isSome {β : Type} (r : Record) (k : String)
    (f : JValue → Except String β) (o : Option β)
    (h : gatedParse r k f = Except.ok o) :
    o.isSome = pyTruthy (lookupD r k JValue.jnull) := by
  unfold gatedParse at h
  cases hp : pyTruthy (lookupD r k JValue.jnull) <;> rw [hp] at h
  · simp only [Bool.false_eq_true, if_false, Except.ok.injEq] at h
    rw [← h]
    rfl
  · simp only [if_true] at h
    cases hf : f (lookupD r k JValue.jnull) <;> rw [hf] at h
    · exact absurd h (by simp)
    · simp only [Except.ok.injEq] at h
      rw [← h]
      rfl

theorem from_data_ok (r : Record) (u : User) (h : User.from_data r = Except.ok u) :
    ∃ pid nm ac bc pf,
      pyIntKey r "id" = Except.ok pid ∧
      getKey r "username" = Except.ok nm ∧
      gatedParse r "accent_color" colourOfValue = Except.ok ac ∧
      gatedParse r "banner_color" colourOfHexValue = Except.ok bc ∧
      gatedParse r "public_flags" flagsOfValue = Except.ok pf ∧
      u = User.build r pid nm ac bc pf := by
  unfold User.from_data at h
  cases h1 : pyIntKey r "id" <;> rw [h1] at h
  · exact absurd h (by simp)
  cases h2 : getKey r "username" <;> rw [h2] at h
  · exact absurd h (by simp)
  cases h3 : gatedParse r "accent_color" colourOfValue <;> rw [h3] at h
  · exact absurd h (by simp)
  cases h4 : gatedParse r "banner_color" colourOfHexValue <;> rw [h4] at h
  · exact absurd h (by simp)
  cases h5 : gatedParse r "public_flags" flagsOfValue <;> rw [h5] at h
  · exact absurd h (by simp)
  simp only [Except.ok.injEq] at h
  exact ⟨_, _, _, _, _, rfl, rfl, rfl, rfl, rfl, h.symm⟩

theorem normDiscriminator_ne_zero (s : String) (hne : s ≠ "0") :
    normDiscriminator (JValue.jstr s) = JValue.jstr s := by
  unfold normDiscriminator
  split
  · next heq =>
    injection heq with h2
    exact absurd h2 hne
  · rfl

/-- C5: parsing a record whose discriminator is the string "0" leaves the
discriminator unset (None), and any other discriminator string is stored
unchanged. -/
theorem user_discriminator_zero_collapsed (r : Record) (u : User)
    (h : User.from_data r = Except.ok u) :
    (lookupD r "discriminator" JValue.jnull = JValue.jstr "0" →
      u.discriminator = JValue.jnull) ∧
    (∀ s : String, s ≠ "0" → s ≠ "" →
      lookupD r "discriminator" JValue.jnull = JValue.jstr s →
      u.discriminator = JValue.jstr s) := by
  obtain ⟨pid, nm, ac, bc, pf, h1, h2, h3, h4, h5, hu⟩ := from_data_ok r u h
  subst hu
  constructor
  · intro hd
    simp only [User.build, hd]
    rfl
  · intro s hs0 hsE hd
    simp only [User.build, hd]
    exact normDiscriminator_ne_zero s hs0

/-- C5 witness: a concrete record with discriminator "0" parses to an unset
discriminator. -/
theorem user_discriminator_zero_collapsed_witness : userC5.discriminator = JValue.jnull :=
  (user_discriminator_zero_collapsed recC5 userC5 (by rfl)).1 (by rfl)

/-- C6: the display name is the global display name when it is set (present
and truthy, per the module's parsing policy), else the base username. -/
theorem user_display_name_global_or_name (r : Record) (u : User)
    (h : User.from_data r = Except.ok u) :
    (pyTruthy (lookupD r "global_name" JValue.jnull) = true →
      u.display_name = lookupD r "global_name" JValue.jnull) ∧
    (pyTruthy (lookupD r "global_name" JValue.jnull) = false →
      getKey r "username" = Except.ok u.display_name) := by
  obtain ⟨pid, nm, ac, bc, pf, h1, h2, h3, h4, h5, hu⟩ := from_data_ok r u h
  subst hu
  constructor
  · intro hg
    simp only [User.display_name, User.build, hg, if_true]
  · intro hg
    simp only [User.display_name, User.build, hg, Bool.false_eq_true, if_false]
    exact h2

/-- C6 witness: a concrete record with a set global name displays it. -/
theorem user_display_name_global_or_name_witness : userC6.display_name = JValue.jstr "G" :=
  (user_display_name_global_or_name recC6 userC6 (by rfl)).1 (by rfl)

/-- C7: the display avatar is the explicit avatar when set, else the default
avatar, a pure function of the id selecting the variant at index
`(id >> 22) % len(DefaultAvatarType)` inside the enumeration; equal ids give
equal variants. -/
theorem user_display_avatar_and_default :
    (∀ (u : User) (a : Asset), u.avatar = some a → u.display_avatar = a) ∧
    (∀ u : User, u.avatar = none → u.display_avatar = defaultAvatarOf u.id) ∧
    (∀ i : Int, defaultAvatarOf i =
      Asset.defaultAvatar (Int.emod (Int.fdiv i (2 ^ 22)) (Int.ofNat DefaultAvatarType.count))) ∧
    (∀ i : Int, 0 ≤ defaultAvatarIndex i ∧
      defaultAvatarIndex i < Int.ofNat DefaultAvatarType.count) ∧
    (∀ i j : Int, i = j → defaultAvatarOf i = defaultAvatarOf j) := by
  refine ⟨?_, ?_, fun i => rfl, ?_, ?_⟩
  · intro u a ha
    simp only [User.display_avatar, ha]
  · intro u ha
    simp only [User.display_avatar, ha]
  · intro i
    unfold defaultAvatarIndex
    exact ⟨Int.emod_nonneg _ (by decide), Int.emod_lt_of_pos _ (by decide)⟩
  · intro i j hij
    rw [hij]

/-- C7 witness: equal ids yield equal default-avatar variants at a concrete
id, and a concrete user with an explicit avatar displays it. -/
theorem user_display_avatar_and_default_witness :
    userC4.display_avatar = Asset.avatar 1 (JValue.jstr "h") :=
  user_display_avatar_and_default.1 userC4 (Asset.avatar 1 (JValue.jstr "h")) (by rfl)

/-- C8: the mention token is "<@!" ++ id ++ ">" for every id, and the spec's
end-to-end record {id: "123", username: "al", global_name: null,
discriminator: "0"} parses to mention "<@!123>", display name "al" and an
unset discriminator. -/
theorem user_mention_token :
    (∀ i : Int, mentionOf i = "<@!" ++ toString i ++ ">") ∧
    (User.from_data specRecord).map User.mention = Except.ok "<@!123>" ∧
    (User.from_data specRecord).map User.display_name = Except.ok (JValue.jstr "al") ∧
    (User.from_data specRecord).map User.discriminator = Except.ok JValue.jnull := by
  exact ⟨fun i => rfl, by rfl, by rfl, by rfl⟩

/-- C10: an explicit `None` channel id is not the MISSING sentinel: no DM
channel is created and the literal string "None" is interpolated into the
message-creation path, while the omitted case issues the DM-creation request
first. -/
theorem user_send_explicit_none_channel (oracle : Request → JValue) (u : PartialUser)
    (args : MessageArgs) (d : Option Rat) :
    (PartialUser.send oracle u args (Omittable.given none) d).requests
      = [messageCreateRequest "None" args] ∧
    pathOf (Endpoint.channelsMessages "None") = "/channels/None/messages" ∧
    List.countP isDmCreate (PartialUser.send oracle u args (Omittable.given none) d).requests = 0 ∧
    (PartialUser.send oracle u args Omittable.missing d).requests.head?
      = some (dmCreateRequest u) := by
  refine ⟨by cases d <;> rfl, rfl, by cases d <;> rfl, ?_⟩
  unfold PartialUser.send
  cases hdm : (PartialUser.create_dm oracle u).result
  · rfl
  · cases d <;> rfl

/-- C4: each gated optional profile field (avatar, banner, accent colour,
banner colour, avatar decoration, public flags) is populated exactly when its
key is present and truthy in the record; absent or falsy values leave the
field unset, and reading an unset field yields the absent value (`none`)
rather than raising. -/
theorem user_optional_fields_iff_truthy (r : Record) (u : User)
    (h : User.from_data r = Except.ok u) :
    u.avatar.isSome = pyTruthy (lookupD r "avatar" JValue.jnull) ∧
    u.banner.isSome = pyTruthy (lookupD r "banner" JValue.jnull) ∧
    u.accent_colour.isSome = pyTruthy (lookupD r "accent_color" JValue.jnull) ∧
    u.banner_colour.isSome = pyTruthy (lookupD r "banner_color" JValue.jnull) ∧
    u.avatar_decoration.isSome = pyTruthy (lookupD r "avatar_decoration" JValue.jnull) ∧
    u.public_flags.isSome = pyTruthy (lookupD r "public_flags" JValue.jnull) := by
  obtain ⟨pid, nm, ac, bc, pf, h1, h2, h3, h4, h5, hu⟩ := from_data_ok r u h
  subst hu
  refine ⟨?_, ?_, ?_, ?_, ?_, ?_⟩
  · cases hp : pyTruthy (lookupD r "avatar" JValue.jnull) <;> simp [User.build, hp]
  · cases hp : pyTruthy (lookupD r "banner" JValue.jnull) <;> simp [User.build, hp]
  · simpa only [User.build] using gatedParse_isSome r "accent_color" colourOfValue ac h3
  · simpa only [User.build] using gatedParse_isSome r "banner_color" colourOfHexValue bc h4
  · cases hp : pyTruthy (lookupD r "avatar_decoration" JValue.jnull) <;> simp [User.build, hp]
  · simpa only [User.build] using gatedParse_isSome r "public_flags" flagsOfValue pf h5

/-- C4 witness: the concrete record with a truthy avatar and banner colour
and absent or falsy remaining optionals. -/
theorem user_optional_fields_iff_truthy_witness :
    userC4.avatar.isSome = pyTruthy (lookupD recC4 "avatar" JValue.jnull) :=
  (user_optional_fields_iff_truthy recC4 userC4 (by rfl)).1

/-- C1: with the channel id omitted, `send` first issues the DM-channel
creation request, then exactly one message-creation request against the
returned channel id, and returns the message parsed from that response; with
a channel id supplied, no DM-creation request is issued. -/
theorem user_send_dm_flow (oracle : Request → JValue) (u : PartialUser)
    (args : MessageArgs) (d : Option Rat) (ch : DMChannel)
    (h : DMChannel.from_json (oracle (dmCreateRequest u)) = Except.ok ch) :
    (PartialUser.send oracle u args Omittable.missing d).requests
      = [dmCreateRequest u, messageCreateRequest (toString ch.id) args] ∧
    List.countP isMsgCreate (PartialUser.send oracle u args Omittable.missing d).requests = 1 ∧
    (PartialUser.send oracle u args Omittable.missing d).result
      = Except.ok (Message.ofData (oracle (messageCreateRequest (toString ch.id) args))) ∧
    (∀ c : Option Int,
      List.countP isDmCreate (PartialUser.send oracle u args (Omittable.given c) d).requests
        = 0) := by
  refine ⟨?_, ?_, ?_, ?_⟩
  · simp only [PartialUser.send, PartialUser.create_dm, h]
    cases d <;> rfl
  · simp only [PartialUser.send, PartialUser.create_dm, h]
    cases d <;> rfl
  · simp only [PartialUser.send, PartialUser.create_dm, h]
    cases d <;> rfl
  · intro c
    cases d <;> rfl

/-- C1 witness: a concrete oracle answering DM creation with channel id 99. -/
theorem user_send_dm_flow_witness :
    (PartialUser.send oracle0 u0 args0 Omittable.missing none).requests
      = [dmCreateRequest u0, messageCreateRequest (toString (DMChannel.mk 99).id) args0] :=
  (user_send_dm_flow oracle0 u0 args0 none (DMChannel.mk 99) (by rfl)).1

/-- C2: with `delete_after` set, `send` issues the same requests and returns
the same message as without it; the deferred deletion is only detached
spawned work, and a failing run of that work yields a swallowed failure, not
an error surfaced to the caller. -/
theorem user_send_delete_after_detached (oracle : Request → JValue) (u : PartialUser)
    (args : MessageArgs) (channel_id : Omittable (Option Int)) (d : Rat) (m : Message)
    (h : (PartialUser.send oracle u args channel_id (some d)).result = Except.ok m) :
    (PartialUser.send oracle u args channel_id (some d)).requests
      = (PartialUser.send oracle u args channel_id none).requests ∧
    (PartialUser.send oracle u args channel_id none).result = Except.ok m ∧
    (PartialUser.send oracle u args channel_id (some d)).spawned
      = [DeferredTask.deleteAfter m d] ∧
    DeferredTask.run (DeferredTask.deleteAfter m d) true
      = DeferredOutcome.swallowedFailure := by
  cases channel_id with
  | given c =>
    simp only [PartialUser.send, sendToChannel, Except.ok.injEq] at h
    subst h
    exact ⟨rfl, rfl, rfl, rfl⟩
  | missing =>
    cases hdm : DMChannel.from_json (oracle (dmCreateRequest u)) with
    | error e =>
      simp [PartialUser.send, PartialUser.create_dm, hdm] at h
    | ok ch =>
      simp only [PartialUser.send, PartialUser.create_dm, hdm, sendToChannel,
        Except.ok.injEq] at h
      subst h
      refine ⟨?_, ?_, ?_, rfl⟩ <;>
        simp [PartialUser.send, PartialUser.create_dm, hdm, sendToChannel, Message.delete]

/-- C2 witness: a concrete send with a channel id and a one-second deferred
deletion spawns exactly the detached deletion task. -/
theorem user_send_delete_after_detached_witness :
    (PartialUser.send oracle0 u0 args0 (Omittable.given (some 5)) (some 1)).spawned
      = [DeferredTask.deleteAfter
          (Message.ofData (oracle0 (messageCreateRequest "5" args0))) 1] :=
  (user_send_delete_after_detached oracle0 u0 args0 (Omittable.given (some 5)) 1
    (Message.ofData (oracle0 (messageCreateRequest "5" args0))) (by rfl)).2.2.1

/-- C9: no operation assigns to the receiver: after `send`, `create_dm`,
`fetch` and `edit` the receiver's field state — its id included — is exactly
what construction set, and `fetch`/`edit` return instances freshly parsed
from the response instead of patching the receiver. -/
theorem user_ops_receiver_unchanged (oracle : Request → JValue) (u : PartialUser)
    (uc : UserClient) (args : MessageArgs) (channel_id : Omittable (Option Int))
    (d : Option Rat) (un : Omittable (Option String))
    (av bn : Omittable (Option (List Nat))) :
    (PartialUser.send oracle u args channel_id d).self_after = u ∧
    (PartialUser.create_dm oracle u).self_after = u ∧
    (PartialUser.fetch oracle u).self_after = u ∧
    (UserClient.edit oracle uc un av bn).self_after = uc ∧
    (PartialUser.fetch oracle u).result = User.from_json (oracle (fetchRequest u)) ∧
    (UserClient.edit oracle uc un av bn).result
      = UserClient.from_json (oracle (editRequest un av bn)) := by
  refine ⟨?_, rfl, rfl, rfl, rfl, rfl⟩
  cases channel_id with
  | given c => cases d <;> rfl
  | missing =>
    cases hdm : DMChannel.from_json (oracle (dmCreateRequest u)) with
    | error e => simp [PartialUser.send, PartialUser.create_dm, hdm]
    | ok ch =>
      simp only [PartialUser.send, PartialUser.create_dm, hdm]
      cases d <;> rfl

/-- C3: the edit payload holds a key exactly when the argument is not the
MISSING sentinel — an explicit None is sent as null, bytes are sent
base64-encoded — so `edit()` with no arguments sends an empty payload, and
the call returns a `UserClient` freshly parsed from the response, not a
locally patched copy of the receiver. -/
theorem user_client_edit_tri_state (oracle : Request → JValue) (uc : UserClient)
    (un : Omittable (Option String)) (av bn : Omittable (Option (List Nat))) :
    List.lookup "username" (editPayload un av bn)
      = (match un with
         | Omittable.missing => none
         | Omittable.given none => some JValue.jnull
         | Omittable.given (some s) => some (JValue.jstr s)) ∧
    List.lookup "avatar" (editPayload un av bn)
      = (match av with
         | Omittable.missing => none
         | Omittable.given none => some JValue.jnull
         | Omittable.given (some b) => some (JValue.jstr (bytes_to_base64 b))) ∧
    List.lookup "banner" (editPayload un av bn)
      = (match bn with
         | Omittable.missing => none
         | Omittable.given none => some JValue.jnull
         | Omittable.given (some b) => some (JValue.jstr (bytes_to_base64 b))) ∧
    editPayload Omittable.missing Omittable.missing Omittable.missing = [] ∧
    (UserClient.edit oracle uc un av bn).result
      = UserClient.from_json (oracle (editRequest un av bn)) ∧
    (UserClient.edit oracle uc un av bn).requests = [editRequest un av bn] := by
  refine ⟨?_, ?_, ?_, rfl, rfl, rfl⟩ <;>
    rcases un with _ | (_ | s) <;> rcases av with _ | (_ | ab) <;>
      rcases bn with _ | (_ | bb) <;> rfl
